import Mathlib

/-!
Shallow embedding of the eventfd-rust crate (src/src/lib.rs), a Rust binding
for the Linux eventfd(2) counter. The wrapper code (EventFD::new, read,
write, clone, as_raw_fd, events and their return-code handling) is
translated from the source. The counter semantics behind the libc calls
live in the kernel, outside the repository, so they are modelled from the
spec in definitions whose doc comments say so.
-/

namespace Eventfd

/-- Semaphore-style flag, src/src/lib.rs line 24. -/
def EFD_SEMAPHORE : Nat := 0x00001

/-- Non-blocking mode flag, src/src/lib.rs line 28. -/
def EFD_NONBLOCK : Nat := 0x00800

/-- Close-on-exec flag, src/src/lib.rs line 31. -/
def EFD_CLOEXEC : Nat := 0x80000

/-- Modelled from the spec: the maximum representable value of the kernel
object's unsigned 64-bit counter, the bound past which a write would
overflow. -/
def EFD_MAX : Nat := 2 ^ 64 - 1

/-- The EventFD handle struct (src/src/lib.rs lines 15-18): a file
descriptor (u32 in the source) plus the creation flags it was built with. -/
structure EventFD where
  fd : Nat
  flags : Nat
deriving DecidableEq

/-- Modelled from the spec: the kernel counter object behind the libc
calls, missing from the repository. It carries the 64-bit counter and the
mode bits fixed at eventfd(2) creation time (semaphore read behaviour,
non-blocking reads and writes). -/
structure EventFDObj where
  counter : Nat
  semaphore : Bool
  nonblock : Bool
deriving DecidableEq

/-- An io::Error as the source code distinguishes them: WouldBlock
(EAGAIN) versus any other OS error code. -/
inductive IoError where
  | wouldBlock
  | osError (code : Int)
deriving DecidableEq

/-- Outcome of an operation that may also suspend the calling thread
(the blocking branch, which a sequential model records explicitly). -/
inductive RW (α : Type) where
  | ok (v : α)
  | err (e : IoError)
  | blocks
deriving DecidableEq

/-- Outcome of the kernel-side read transaction. -/
inductive ReadOutcome where
  | ok (v : Nat) (o : EventFDObj)
  | eagain
  | blocks
deriving DecidableEq

/-- Modelled from the spec: the kernel read transaction on an eventfd
object. Counter positive: semaphore mode takes exactly 1 and returns 1,
normal mode returns the whole counter and resets it to 0. Counter zero:
EAGAIN when non-blocking, otherwise the caller suspends. -/
def efdRead (o : EventFDObj) : ReadOutcome :=
  if 0 < o.counter then
    if o.semaphore then .ok 1 { o with counter := o.counter - 1 }
    else .ok o.counter { o with counter := 0 }
  else
    if o.nonblock then .eagain else .blocks

/-- Outcome of the kernel-side write transaction. -/
inductive WriteOutcome where
  | ok (o : EventFDObj)
  | eagain
  | blocks
deriving DecidableEq

/-- Modelled from the spec: the kernel write transaction, adding the
written value to the counter. A sum past the maximum representable
counter value gives EAGAIN when non-blocking, otherwise the caller
suspends until readers drain the counter. -/
def efdWrite (v : Nat) (o : EventFDObj) : WriteOutcome :=
  if o.counter + v ≤ EFD_MAX then .ok { o with counter := o.counter + v }
  else if o.nonblock then .eagain else .blocks

/-- Return-value handling of EventFD::read (src/src/lib.rs lines 53-65):
`ret` is the zero-initialized u64 buffer as left by the libc::read call,
`r` the call's return value and `errno` the io::Error last_os_error
would report. Only `r < 0` is treated as failure; the byte count in `r`
is never compared against the 8 bytes requested. -/
def readWrap (r : Int) (errno : IoError) (ret : Nat) : Except IoError Nat :=
  if r < 0 then .error errno else .ok ret

/-- Return-value handling of EventFD::write (src/src/lib.rs lines 68-79):
only `r < 0` is failure; any non-negative byte count is success. -/
def writeWrap (r : Int) (errno : IoError) : Except IoError Unit :=
  if r < 0 then .error errno else .ok ()

/-- Return-value handling of EventFD::new (src/src/lib.rs lines 39-47):
`r` is the eventfd(2) return value; negative means Err(last_os_error),
otherwise the fd is stored as u32 together with the flags. -/
def newWrap (r : Int) (errno : IoError) (flags : Nat) : Except IoError EventFD :=
  if r < 0 then .error errno else .ok ⟨r.toNat % 2 ^ 32, flags⟩

/-- Result of the Clone impl: either a new handle or the fatal stop the
source takes when dup(2) fails. There is no constructor carrying a
recoverable error value. -/
inductive CloneResult where
  | handle (e : EventFD)
  | panicked
deriving DecidableEq

/-- Return-value handling of the Clone impl (src/src/lib.rs lines
134-143): `r` is the dup(2) return value; negative aborts the thread via
a panic, otherwise the new handle keeps self's flags. -/
def cloneWrap (r : Int) (self : EventFD) : CloneResult :=
  if r < 0 then .panicked else .handle ⟨r.toNat % 2 ^ 32, self.flags⟩

/-- Borrow-only accessor of the AsRawFd impl (src/src/lib.rs lines
114-120): returns the raw fd, leaving the handle intact. -/
def as_raw_fd (e : EventFD) : Nat := e.fd

/-- The raw-fd accessor shapes a Rust wrapper type can export: borrowing
(`fn(&self)`, AsRawFd) or consuming (`fn(self)`, IntoRawFd). -/
inductive RawFdAccessor where
  | borrowing
  | consuming
deriving DecidableEq

/-- The raw-fd accessors the source actually exports: the AsRawFd impl
(src/src/lib.rs lines 114-120) is the only one; no IntoRawFd or other
consuming accessor appears anywhere in src/src/lib.rs. -/
def exportedRawFdAccessors : List RawFdAccessor := [.borrowing]

/-- System state tying handles to kernel objects: an fd table mapping
open descriptors to kernel object ids, the kernel objects themselves,
and fresh-id counters (dup(2) and eventfd(2) return unused fds). -/
structure Sys where
  fdTable : List (Nat × Nat)
  objs : List (Nat × EventFDObj)
  nextFd : Nat
  nextObj : Nat
deriving DecidableEq

/-- Initial system state: no eventfd objects; fds 0-2 taken by the
standard streams. -/
def sys0 : Sys := ⟨[], [], 3, 0⟩

/-- Object id an open fd refers to. -/
def fdLookup (s : Sys) (fd : Nat) : Option Nat := s.fdTable.lookup fd

/-- Kernel object stored under an object id. -/
def objLookup (s : Sys) (oid : Nat) : Option EventFDObj := s.objs.lookup oid

/-- Replace the object stored under `oid`. -/
def setObj : List (Nat × EventFDObj) → Nat → EventFDObj → List (Nat × EventFDObj)
  | [], _, _ => []
  | (k, v) :: rest, oid, o =>
    if k = oid then (k, o) :: setObj rest oid o else (k, v) :: setObj rest oid o

/-- System state with the object under `oid` replaced. -/
def withObj (s : Sys) (oid : Nat) (o : EventFDObj) : Sys :=
  { s with objs := setObj s.objs oid o }

/-- Kernel object as eventfd(2) creates it. The initial counter comes
through EventFD::new's `initval: u32` parameter (src/src/lib.rs line 39),
so only its low 32 bits reach the kernel; the mode bits are decoded from
the flag word. -/
def mkObj (initval flags : Nat) : EventFDObj :=
  { counter := initval % 2 ^ 32
    semaphore := (flags &&& EFD_SEMAPHORE) != 0
    nonblock := (flags &&& EFD_NONBLOCK) != 0 }

/-- EventFD::new on the success path (src/src/lib.rs lines 39-47)
composed with the modelled kernel allocation: a fresh kernel object
initialized per `mkObj`, a fresh fd bound to it, and a handle recording
that fd and the flags. -/
def sysEventfd (initval flags : Nat) (s : Sys) : Sys × EventFD :=
  (⟨(s.nextFd, s.nextObj) :: s.fdTable,
    (s.nextObj, mkObj initval flags) :: s.objs,
    s.nextFd + 1, s.nextObj + 1⟩,
   ⟨s.nextFd, flags⟩)

/-- EventFD::read (src/src/lib.rs lines 53-65) against the modelled
kernel: the kernel transaction runs on the object behind the handle's
fd, and its return value goes through the source's `readWrap` check
(8 bytes on success, -1 with EAGAIN in errno on a non-blocking empty
read). A closed fd reports EBADF (code 9). -/
def sysRead (s : Sys) (e : EventFD) : RW (Nat × Sys) :=
  match fdLookup s e.fd with
  | none => .err (.osError 9)
  | some oid =>
    match objLookup s oid with
    | none => .err (.osError 9)
    | some o =>
      match efdRead o with
      | .ok v o2 =>
        match readWrap 8 (.osError 0) v with
        | .ok v2 => .ok (v2, withObj s oid o2)
        | .error err => .err err
      | .eagain =>
        match readWrap (-1) .wouldBlock 0 with
        | .ok v2 => .ok (v2, s)
        | .error err => .err err
      | .blocks => .blocks

/-- EventFD::write (src/src/lib.rs lines 68-79) against the modelled
kernel, mirroring `sysRead`. -/
def sysWrite (s : Sys) (e : EventFD) (v : Nat) : RW Sys :=
  match fdLookup s e.fd with
  | none => .err (.osError 9)
  | some oid =>
    match objLookup s oid with
    | none => .err (.osError 9)
    | some o =>
      match efdWrite v o with
      | .ok o2 =>
        match writeWrap 8 (.osError 0) with
        | .ok _ => .ok (withObj s oid o2)
        | .error err => .err err
      | .eagain =>
        match writeWrap (-1) .wouldBlock with
        | .ok _ => .ok s
        | .error err => .err err
      | .blocks => .blocks

/-- The Clone impl (src/src/lib.rs lines 134-143) composed with the
modelled dup(2): a fresh fd bound to the same kernel object id, the new
handle copying self's flags. `none` is the dup failure case, where the
source panics (`cloneWrap` with a negative return). -/
def sysClone (s : Sys) (e : EventFD) : Option (Sys × EventFD) :=
  match fdLookup s e.fd with
  | none => none
  | some oid =>
    some (⟨(s.nextFd, oid) :: s.fdTable, s.objs, s.nextFd + 1, s.nextObj⟩,
          ⟨s.nextFd, e.flags⟩)

/-- Value part of a read outcome. -/
def rwVal : RW (Nat × Sys) → RW Nat
  | .ok (v, _) => .ok v
  | .err e => .err e
  | .blocks => .blocks

/-- State after a read outcome (unchanged unless the read succeeded). -/
def rwSys (s : Sys) : RW (Nat × Sys) → Sys
  | .ok (_, s2) => s2
  | _ => s

/-- State after a write outcome (unchanged unless the write succeeded). -/
def wSys (s : Sys) : RW Sys → Sys
  | .ok s2 => s2
  | _ => s

/-- Results of `n` successive reads through one handle. -/
def readSeq (s : Sys) (e : EventFD) : Nat → List (RW Nat)
  | 0 => []
  | n + 1 =>
    let r := sysRead s e
    rwVal r :: readSeq (rwSys s r) e n

/-- Capacity passed to mpsc::sync_channel by EventFD::events
(src/src/lib.rs line 95). -/
def syncChannelCap : Nat := 1

/-- Status of the background loop spawned by EventFD::events. -/
inductive LoopStatus where
  | running
  | terminated
  | panicked
deriving DecidableEq

/-- State of one event stream: the kernel object seen through the loop's
cloned handle, the undelivered values sitting in the sync_channel buffer,
whether the consumer still holds the Receiver, and the loop status. -/
structure StreamState where
  obj : EventFDObj
  chan : List Nat
  receiverAlive : Bool
  status : LoopStatus
deriving DecidableEq

/-- EventFD::events at subscription time (src/src/lib.rs lines 94-111):
fresh single-slot channel, live receiver, running loop holding a clone of
the handle (the kernel object is shared, so the loop sees `o`). -/
def mkStream (o : EventFDObj) : StreamState := ⟨o, [], true, .running⟩

/-- One iteration of the spawned loop (src/src/lib.rs lines 98-108).
A successful read hands the value to the channel: with the receiver gone
the send fails and the loop breaks; with the buffer full the send blocks,
so the iteration makes no progress. A read error is the panic branch.
A loop no longer running does nothing more. -/
def loopStep (s : StreamState) : StreamState :=
  match s.status with
  | .running =>
    match efdRead s.obj with
    | .ok v o2 =>
      if s.receiverAlive then
        if s.chan.length < syncChannelCap then
          { s with obj := o2, chan := s.chan ++ [v] }
        else s
      else { s with obj := o2, status := .terminated }
    | .eagain => { s with status := .panicked }
    | .blocks => s
  | _ => s

/-- Whether the loop's cloned handle has been dropped (its fd closed):
Rust drops the clone when the spawned thread exits, on the normal break
and on panic unwinding alike. -/
def dupHandleClosed (s : StreamState) : Bool :=
  match s.status with
  | .running => false
  | .terminated => true
  | .panicked => true

/-- What Receiver::recv observes on the stream. -/
inductive RecvOutcome where
  | value (v : Nat) (t : StreamState)
  | disconnected
  | blocked
deriving DecidableEq

/-- Receiver side of the channel: recv drains buffered values first; on
an empty buffer it blocks while the sender (the loop) is alive and
reports disconnection once the loop has exited. -/
def recvOutcome (s : StreamState) : RecvOutcome :=
  match s.chan with
  | v :: rest => .value v { s with chan := rest }
  | [] =>
    match s.status with
    | .running => .blocked
    | _ => .disconnected

/-- Events the stream's state can undergo: a producer-loop iteration, the
consumer receiving a buffered value, or the consumer dropping the
Receiver. -/
inductive StreamStep : StreamState → StreamState → Prop where
  | producer (s : StreamState) : StreamStep s (loopStep s)
  | consume (s : StreamState) (v : Nat) (rest : List Nat) :
      s.chan = v :: rest → StreamStep s { s with chan := rest }
  | dropReceiver (s : StreamState) : StreamStep s { s with receiverAlive := false }

/-- Reachability under stream steps. -/
inductive StreamReach : StreamState → StreamState → Prop where
  | refl (s : StreamState) : StreamReach s s
  | tail {a b c : StreamState} : StreamReach a b → StreamStep b c → StreamReach a c

/-! Concrete scenarios used to instantiate the theorems. -/

/-- Scenario from test_basic and the spec's duplicate-aliasing property:
an eventfd created with initial counter 10 and no flags. -/
def basicPair : Sys × EventFD := sysEventfd 10 0 sys0

/-- The kernel object of the basic scenario. -/
def basicObj : EventFDObj := mkObj 10 0

/-- Scenario from test_sema: an eventfd created with initial counter 0
and flags EFD_SEMAPHORE plus EFD_NONBLOCK. -/
def semaPair : Sys × EventFD := sysEventfd 0 (EFD_SEMAPHORE ||| EFD_NONBLOCK) sys0

/-- The semaphore scenario after Write(5). -/
def semaDrainSys : Sys := wSys semaPair.1 (sysWrite semaPair.1 semaPair.2 5)

/-! Helper lemmas. -/

/-- A read whose kernel call transferred 8 bytes is Ok with the buffer
value. -/
theorem readWrap_succ (errno : IoError) (ret : Nat) :
    readWrap 8 errno ret = .ok ret := rfl

/-- A read whose kernel call returned -1 is Err(errno), the buffer still
zero. -/
theorem readWrap_neg (errno : IoError) : readWrap (-1) errno 0 = .error errno := rfl

/-- A write whose kernel call transferred 8 bytes is Ok. -/
theorem writeWrap_succ (errno : IoError) : writeWrap 8 errno = .ok () := rfl

/-- A write whose kernel call returned -1 is Err(errno). -/
theorem writeWrap_neg (errno : IoError) : writeWrap (-1) errno = .error errno := rfl

/-- Replacing the object stored under a bound id makes lookups return the
replacement. -/
theorem lookup_setObj (l : List (Nat × EventFDObj)) (oid : Nat) (o o2 : EventFDObj)
    (h : l.lookup oid = some o) : (setObj l oid o2).lookup oid = some o2 := by
  induction l with
  | nil => simp [List.lookup] at h
  | cons kv rest ih =>
    obtain ⟨k, v⟩ := kv
    by_cases hk : k = oid
    · subst hk
      simp [setObj, List.lookup]
    · have hne : (oid == k) = false := by
        simp [beq_iff_eq]
        exact fun he => hk he.symm
      simp only [setObj, if_neg hk, List.lookup, hne] at h ⊢
      exact ih h

/-! Claim theorems. -/

/-- C1: Read behaves by mode on every handle whose fd is open on a kernel
object. Normal mode with a positive counter returns the counter and
resets it to 0; semaphore mode with a positive counter decrements by
exactly 1 and returns 1; in either mode a zero counter on a non-blocking
handle fails with WouldBlock. -/
theorem read_mode_semantics (s : Sys) (e : EventFD) (oid : Nat) (o : EventFDObj)
    (hfd : fdLookup s e.fd = some oid) (hobj : objLookup s oid = some o) :
    (o.semaphore = false → 0 < o.counter →
      sysRead s e = .ok (o.counter, withObj s oid { o with counter := 0 })) ∧
    (o.semaphore = true → 0 < o.counter →
      sysRead s e = .ok (1, withObj s oid { o with counter := o.counter - 1 })) ∧
    (o.counter = 0 → o.nonblock = true → sysRead s e = .err .wouldBlock) := by
  refine ⟨?_, ?_, ?_⟩
  · intro hsem hpos
    simp [sysRead, hfd, hobj, efdRead, hsem, hpos, readWrap_succ]
  · intro hsem hpos
    simp [sysRead, hfd, hobj, efdRead, hsem, hpos, readWrap_succ]
  · intro hz hnb
    simp [sysRead, hfd, hobj, efdRead, hz, hnb, readWrap_neg]

/-- C1 witness: the claim instantiated on the eventfd of the basic
scenario (initial counter 10, no flags). -/
theorem read_mode_semantics_witness :
    (basicObj.semaphore = false → 0 < basicObj.counter →
      sysRead basicPair.1 basicPair.2 =
        .ok (basicObj.counter, withObj basicPair.1 0 { basicObj with counter := 0 })) ∧
    (basicObj.semaphore = true → 0 < basicObj.counter →
      sysRead basicPair.1 basicPair.2 =
        .ok (1, withObj basicPair.1 0 { basicObj with counter := basicObj.counter - 1 })) ∧
    (basicObj.counter = 0 → basicObj.nonblock = true →
      sysRead basicPair.1 basicPair.2 = .err .wouldBlock) :=
  read_mode_semantics basicPair.1 basicPair.2 0 basicObj (by decide) (by decide)

/-- C2: Write(v) on every handle whose fd is open adds v to the shared
counter and returns unit when the sum fits; v = 0 is accepted and leaves
the counter unchanged; a sum past the maximum representable counter
value on a non-blocking handle fails with WouldBlock instead of
suspending. -/
theorem write_add_semantics (s : Sys) (e : EventFD) (oid : Nat) (o : EventFDObj) (v : Nat)
    (hfd : fdLookup s e.fd = some oid) (hobj : objLookup s oid = some o)
    (hcnt : o.counter ≤ EFD_MAX) :
    (o.counter + v ≤ EFD_MAX →
      sysWrite s e v = .ok (withObj s oid { o with counter := o.counter + v })) ∧
    (sysWrite s e 0 = .ok (withObj s oid o)) ∧
    (EFD_MAX < o.counter + v → o.nonblock = true →
      sysWrite s e v = .err .wouldBlock) := by
  refine ⟨?_, ?_, ?_⟩
  · intro hle
    simp [sysWrite, hfd, hobj, efdWrite, hle, writeWrap_succ]
  · simp [sysWrite, hfd, hobj, efdWrite, hcnt, writeWrap_succ]
  · intro hgt hnb
    simp [sysWrite, hfd, hobj, efdWrite, Nat.not_le.mpr hgt, hnb, writeWrap_neg]

/-- C2 witness: the claim instantiated on the basic scenario with v = 7. -/
theorem write_add_semantics_witness :
    (basicObj.counter + 7 ≤ EFD_MAX →
      sysWrite basicPair.1 basicPair.2 7 =
        .ok (withObj basicPair.1 0 { basicObj with counter := basicObj.counter + 7 })) ∧
    (sysWrite basicPair.1 basicPair.2 0 = .ok (withObj basicPair.1 0 basicObj)) ∧
    (EFD_MAX < basicObj.counter + 7 → basicObj.nonblock = true →
      sysWrite basicPair.1 basicPair.2 7 = .err .wouldBlock) :=
  write_add_semantics basicPair.1 basicPair.2 0 basicObj 7 (by decide) (by decide) (by decide)

/-- C3: cloning a handle yields a new handle bound to the same kernel
object id, carrying the same recorded flags, and a write through the
original followed by a normal-mode read through the clone observes the
combined counter. -/
theorem clone_shares_object (s : Sys) (e : EventFD) (oid : Nat) (o : EventFDObj) (v : Nat)
    (hfd : fdLookup s e.fd = some oid) (hobj : objLookup s oid = some o)
    (hfresh : e.fd < s.nextFd) (hsem : o.semaphore = false)
    (hof : o.counter + v ≤ EFD_MAX) (hpos : 0 < o.counter + v) :
    ∃ s2 e2, sysClone s e = some (s2, e2) ∧
      e2.flags = e.flags ∧
      fdLookup s2 e2.fd = some oid ∧
      fdLookup s2 e.fd = some oid ∧
      ∃ s3, sysWrite s2 e v = .ok s3 ∧
        sysRead s3 e2 = .ok (o.counter + v, withObj s3 oid { o with counter := 0 }) := by
  have hobj2 : s.objs.lookup oid = some o := hobj
  have hfd2 : s.fdTable.lookup e.fd = some oid := hfd
  obtain ⟨c, sem, nb⟩ := o
  replace hsem : sem = false := hsem
  subst hsem
  have hne : (e.fd == s.nextFd) = false := by
    simp [beq_iff_eq]
    exact Nat.ne_of_lt hfresh
  refine ⟨⟨(s.nextFd, oid) :: s.fdTable, s.objs, s.nextFd + 1, s.nextObj⟩,
    ⟨s.nextFd, e.flags⟩, ?_, rfl, ?_, ?_, ?_⟩
  · simp [sysClone, fdLookup, hfd2]
  · simp [fdLookup, List.lookup]
  · simp only [fdLookup, List.lookup, hne]
    exact hfd2
  · refine ⟨withObj ⟨(s.nextFd, oid) :: s.fdTable, s.objs, s.nextFd + 1, s.nextObj⟩ oid
      ⟨c + v, false, nb⟩, ?_, ?_⟩
    · simp [sysWrite, fdLookup, List.lookup, hne, hfd2, objLookup, hobj2, efdWrite, hof,
        writeWrap_succ]
    · have hset := lookup_setObj s.objs oid ⟨c, false, nb⟩ ⟨c + v, false, nb⟩ hobj2
      simp [sysRead, fdLookup, withObj, List.lookup, objLookup, hset, efdRead, hpos,
        readWrap_succ]

/-- C3 witness: the spec's duplicate-aliasing scenario — construct with
initial counter 10, clone, Write(1) through the original, and the read
through the clone returns 11. -/
theorem clone_shares_object_witness :
    ∃ s2 e2, sysClone basicPair.1 basicPair.2 = some (s2, e2) ∧
      e2.flags = basicPair.2.flags ∧
      fdLookup s2 e2.fd = some 0 ∧
      fdLookup s2 basicPair.2.fd = some 0 ∧
      ∃ s3, sysWrite s2 basicPair.2 1 = .ok s3 ∧
        sysRead s3 e2 = .ok (basicObj.counter + 1, withObj s3 0 { basicObj with counter := 0 }) :=
  clone_shares_object basicPair.1 basicPair.2 0 basicObj 1 (by decide) (by decide)
    (by decide) (by decide) (by decide) (by decide)

/-- C4 counterexample: constructing with the 64-bit initial value 2^32
does not initialize the counter to 2^32 — the `initval: u32` parameter
of EventFD::new truncates it, and the kernel object starts at 0. -/
theorem construct_initval_counterexample :
    objLookup (sysEventfd (2 ^ 32) 0 sys0).1 0 = some ⟨0, false, false⟩ ∧
    ¬ objLookup (sysEventfd (2 ^ 32) 0 sys0).1 0 = some ⟨2 ^ 32, false, false⟩ := by
  decide

/-- C4 amended: Construct's initial-value parameter is unsigned 32-bit,
so every initial value below 2^32 initializes the kernel counter to
exactly that value (larger values are truncated mod 2^32 at the
parameter), the handle records the flags, and construction returns
Err(OsError) exactly when the kernel call fails (negative return). -/
theorem construct_initval_u32 (initval flags : Nat) (s : Sys) (r : Int) (errno : IoError)
    (h32 : initval < 2 ^ 32) :
    objLookup (sysEventfd initval flags s).1 s.nextObj = some (mkObj initval flags) ∧
    (mkObj initval flags).counter = initval ∧
    (sysEventfd initval flags s).2.flags = flags ∧
    (r < 0 → newWrap r errno flags = .error errno) ∧
    (0 ≤ r → newWrap r errno flags = .ok ⟨r.toNat % 2 ^ 32, flags⟩) := by
  refine ⟨?_, ?_, rfl, ?_, ?_⟩
  · simp [sysEventfd, objLookup, List.lookup]
  · exact Nat.mod_eq_of_lt h32
  · intro hr
    simp [newWrap, hr]
  · intro hr
    simp [newWrap, Int.not_lt.mpr hr]

/-- C4 amended witness: instantiated at initial value 10, flags 0, with
a failing kernel return of -1. -/
theorem construct_initval_u32_witness :
    objLookup (sysEventfd 10 0 sys0).1 sys0.nextObj = some (mkObj 10 0) ∧
    (mkObj 10 0).counter = 10 ∧
    (sysEventfd 10 0 sys0).2.flags = 0 ∧
    ((-1 : Int) < 0 → newWrap (-1) .wouldBlock 0 = .error .wouldBlock) ∧
    ((0 : Int) ≤ -1 → newWrap (-1) .wouldBlock 0 = .ok ⟨(-1 : Int).toNat % 2 ^ 32, 0⟩) :=
  construct_initval_u32 10 0 sys0 (-1) .wouldBlock (by decide)

/-- C5: in the semaphore scenario (construct with 0 and
SEMAPHORE|NONBLOCK, then Write(5)) the next five reads each return
exactly 1 and the sixth fails with WouldBlock; and on any non-blocking
handle a read fails with WouldBlock exactly when the counter is zero. -/
theorem sema_drain_wouldblock (s : Sys) (e : EventFD) (oid : Nat) (o : EventFDObj)
    (hfd : fdLookup s e.fd = some oid) (hobj : objLookup s oid = some o)
    (hnb : o.nonblock = true) :
    readSeq semaDrainSys semaPair.2 6 =
      [.ok 1, .ok 1, .ok 1, .ok 1, .ok 1, .err .wouldBlock] ∧
    (sysRead s e = .err .wouldBlock ↔ o.counter = 0) := by
  refine ⟨by decide, ?_, ?_⟩
  · intro hr
    by_contra hc
    have hpos : 0 < o.counter := Nat.pos_of_ne_zero hc
    cases hsem : o.semaphore with
    | false => simp [sysRead, hfd, hobj, efdRead, hsem, hpos, readWrap_succ] at hr
    | true => simp [sysRead, hfd, hobj, efdRead, hsem, hpos, readWrap_succ] at hr
  · intro hz
    simp [sysRead, hfd, hobj, efdRead, hz, hnb, readWrap_neg]

/-- C5 witness: the general WouldBlock equivalence instantiated on the
freshly constructed semaphore eventfd, whose counter is 0. -/
theorem sema_drain_wouldblock_witness :
    readSeq semaDrainSys semaPair.2 6 =
      [.ok 1, .ok 1, .ok 1, .ok 1, .ok 1, .err .wouldBlock] ∧
    (sysRead semaPair.1 semaPair.2 = .err .wouldBlock ↔
      (mkObj 0 (EFD_SEMAPHORE ||| EFD_NONBLOCK)).counter = 0) :=
  sema_drain_wouldblock semaPair.1 semaPair.2 0 (mkObj 0 (EFD_SEMAPHORE ||| EFD_NONBLOCK))
    (by decide) (by decide) (by decide)

/-- One loop iteration keeps the channel buffer within the sync_channel
capacity: a value is appended only when the buffer is strictly below it. -/
theorem loopStep_chanLen (s : StreamState) (h : s.chan.length ≤ syncChannelCap) :
    (loopStep s).chan.length ≤ syncChannelCap := by
  unfold loopStep
  split
  · split
    · split
      · split
        · next hlen =>
          simp only [List.length_append, List.length_cons, List.length_nil]
          simp only [syncChannelCap] at hlen ⊢
          omega
        · exact h
      · exact h
    · exact h
    · exact h
  · exact h

/-- Every state reachable from a fresh stream keeps the channel buffer
within the sync_channel capacity. -/
theorem chanLen_reach {o : EventFDObj} {s : StreamState}
    (h : StreamReach (mkStream o) s) : s.chan.length ≤ syncChannelCap := by
  induction h with
  | refl => simp [mkStream]
  | tail hreach hstep ih =>
    cases hstep with
    | producer => exact loopStep_chanLen _ ih
    | consume v rest hchan =>
      have h2 : (v :: rest).length ≤ syncChannelCap := hchan ▸ ih
      exact Nat.le_of_succ_le h2
    | dropReceiver => exact ih

/-- C6: the stream's hand-off channel is single-slot (sync_channel(1)),
so no reachable stream state buffers more than one undelivered value;
and when a successful read's hand-off fails because the receiver was
dropped, the loop terminates and its cloned handle is closed. -/
theorem events_single_slot_handoff (o : EventFDObj) (s t : StreamState) (v : Nat)
    (o2 : EventFDObj) (hreach : StreamReach (mkStream o) s)
    (hrun : t.status = .running) (hdead : t.receiverAlive = false)
    (hread : efdRead t.obj = .ok v o2) :
    syncChannelCap = 1 ∧
    s.chan.length ≤ syncChannelCap ∧
    loopStep t = { t with obj := o2, status := .terminated } ∧
    dupHandleClosed (loopStep t) = true := by
  have hstep : loopStep t = { t with obj := o2, status := .terminated } := by
    simp [loopStep, hrun, hread, hdead]
  exact ⟨rfl, chanLen_reach hreach, hstep, by simp [hstep, dupHandleClosed]⟩

/-- Stream state used to instantiate the hand-off failure case: counter
5, receiver already dropped, loop still running. -/
def wStreamT : StreamState := ⟨⟨5, false, false⟩, [], false, .running⟩

/-- C6 witness: the claim instantiated on a fresh stream over the basic
object and on a concrete state whose receiver is gone. -/
theorem events_single_slot_handoff_witness :
    syncChannelCap = 1 ∧
    (mkStream basicObj).chan.length ≤ syncChannelCap ∧
    loopStep wStreamT = { wStreamT with obj := ⟨0, false, false⟩, status := .terminated } ∧
    dupHandleClosed (loopStep wStreamT) = true :=
  events_single_slot_handoff basicObj (mkStream basicObj) wStreamT 5 ⟨0, false, false⟩
    (StreamReach.refl _) (by decide) (by decide) (by decide)

/-- C7: a read error inside the loop (the only non-graceful path) sends
the loop to its panicked state, leaving the kernel object and channel
untouched; the stopped loop makes no further steps; its handle is
dropped; the failure is observable by the consumer as a disconnected
stream rather than silently swallowed; and the graceful terminated
status is never the result of a read error. -/
theorem events_read_error_panics (s : StreamState)
    (hrun : s.status = .running) (herr : efdRead s.obj = .eagain) :
    (loopStep s).status = .panicked ∧
    (loopStep s).obj = s.obj ∧
    (loopStep s).chan = s.chan ∧
    dupHandleClosed (loopStep s) = true ∧
    loopStep (loopStep s) = loopStep s ∧
    (loopStep s).status ≠ .terminated ∧
    (∀ t : StreamState, t.status = .panicked → t.chan = [] →
      recvOutcome t = .disconnected) := by
  have hstep : loopStep s = { s with status := .panicked } := by
    simp [loopStep, hrun, herr]
  refine ⟨by simp [hstep], by simp [hstep], by simp [hstep],
    by simp [hstep, dupHandleClosed], ?_, by simp [hstep], ?_⟩
  · rw [hstep]
    simp [loopStep]
  · intro t hp hc
    simp [recvOutcome, hc, hp]

/-- Stream state used to instantiate the read failure case: empty
non-blocking object, so the loop's next read fails with EAGAIN. -/
def wStreamP : StreamState := ⟨⟨0, false, true⟩, [], true, .running⟩

/-- C7 witness: the claim instantiated on a running loop over an empty
non-blocking object. -/
theorem events_read_error_panics_witness :
    (loopStep wStreamP).status = .panicked ∧
    (loopStep wStreamP).obj = wStreamP.obj ∧
    (loopStep wStreamP).chan = wStreamP.chan ∧
    dupHandleClosed (loopStep wStreamP) = true ∧
    loopStep (loopStep wStreamP) = loopStep wStreamP ∧
    (loopStep wStreamP).status ≠ .terminated ∧
    (∀ t : StreamState, t.status = .panicked → t.chan = [] →
      recvOutcome t = .disconnected) :=
  events_read_error_panics wStreamP (by decide) (by decide)

/-- C8 counterexample: the source exports no consuming raw-fd accessor —
only the borrowing AsRawFd impl exists. -/
theorem raw_fd_accessor_counterexample :
    RawFdAccessor.consuming ∉ exportedRawFdAccessors := by decide

/-- C8 amended: the public interface exposes the borrow-only raw-fd
accessor (AsRawFd::as_raw_fd, returning the stored fd), and no distinct
consuming accessor exists. -/
theorem raw_fd_accessor_borrow_only (e : EventFD) :
    RawFdAccessor.borrowing ∈ exportedRawFdAccessors ∧
    RawFdAccessor.consuming ∉ exportedRawFdAccessors ∧
    as_raw_fd e = e.fd :=
  ⟨by decide, by decide, rfl⟩

/-- C8 amended witness: instantiated on a concrete handle. -/
theorem raw_fd_accessor_borrow_only_witness :
    RawFdAccessor.borrowing ∈ exportedRawFdAccessors ∧
    RawFdAccessor.consuming ∉ exportedRawFdAccessors ∧
    as_raw_fd ⟨3, 0⟩ = (⟨3, 0⟩ : EventFD).fd :=
  raw_fd_accessor_borrow_only ⟨3, 0⟩

/-- C9: when dup(2) fails, Clone takes the fatal panic branch: the
result is the panicked outcome, never a handle, and the clone surface
has no constructor carrying a recoverable error value at all. -/
theorem clone_failure_panics (r : Int) (e : EventFD) (hr : r < 0) :
    cloneWrap r e = .panicked ∧
    (∀ h2 : EventFD, cloneWrap r e ≠ .handle h2) ∧
    (∀ res : CloneResult, res = .panicked ∨ ∃ h2, res = .handle h2) := by
  refine ⟨by simp [cloneWrap, hr], ?_, ?_⟩
  · intro h2
    simp [cloneWrap, hr]
  · intro res
    cases res with
    | handle h2 => exact Or.inr ⟨h2, rfl⟩
    | panicked => exact Or.inl rfl

/-- C9 witness: instantiated at a dup return of -1. -/
theorem clone_failure_panics_witness :
    cloneWrap (-1) ⟨3, 0⟩ = .panicked ∧
    (∀ h2 : EventFD, cloneWrap (-1) ⟨3, 0⟩ ≠ .handle h2) ∧
    (∀ res : CloneResult, res = .panicked ∨ ∃ h2, res = .handle h2) :=
  clone_failure_panics (-1) ⟨3, 0⟩ (by decide)

/-- C10: every non-negative kernel return count is treated as full
success — the byte count is never compared against 8 — so a zero-byte
transfer makes read return Ok with the zero-initialized buffer (Ok 0)
and write return Ok (). -/
theorem short_transfer_is_success (r : Int) (errno : IoError) (hr : 0 ≤ r) :
    readWrap r errno 0 = .ok 0 ∧
    (∀ ret : Nat, readWrap r errno ret = .ok ret) ∧
    writeWrap r errno = .ok () := by
  have hn : ¬ r < 0 := Int.not_lt.mpr hr
  exact ⟨by simp [readWrap, hn], fun ret => by simp [readWrap, hn], by simp [writeWrap, hn]⟩

/-- C10 witness: instantiated at a zero-byte transfer. -/
theorem short_transfer_is_success_witness :
    readWrap 0 (.osError 5) 0 = .ok 0 ∧
    (∀ ret : Nat, readWrap 0 (.osError 5) ret = .ok ret) ∧
    writeWrap 0 (.osError 5) = .ok () :=
  short_transfer_is_success 0 (.osError 5) (by decide)

end Eventfd
